import Mathlib

/-!
# Verification of the traffic-simulation engine

A shallow embedding of `src/hooks/useTrafficSimulation.ts`.  JavaScript
numbers are modelled as exact rationals (all constants in the source are
small dyadic rationals and the comparisons at stake are far from any
floating-point rounding boundary); `Math.hypot`-based strict comparisons
`hypot dx dy < c` are embedded as `dx^2 + dy^2 < c^2`, which is equivalent
for non-negative `c`.  Array indices 0..3 of an intersection's `lights`
array correspond to the approach directions N, S, E, W (see the
`lightIndex` map in `moveVehicles`).
-/

namespace Traffic

/-- Constants from the top of `useTrafficSimulation.ts`. -/
def GRID_SIZE : Nat := 3
def LANE_WIDTH : ℚ := 50
def INTERSECTION_SIZE : ℚ := 100
def CELL_SIZE : ℚ := LANE_WIDTH * 2 + INTERSECTION_SIZE
def TICKS_PER_SECOND : Nat := 10
def INITIAL_LIGHT_DURATION : Int := 20
def YELLOW_LIGHT_DURATION : Int := 5
def JAM_VEHICLE_THRESHOLD : Nat := 3
def COLLISION_FLASH_DURATION_TICKS : Nat := 10

/-- `LightState` enum. -/
inductive LightState where
  | Red
  | Yellow
  | Green
deriving DecidableEq, Repr

/-- `Direction` variant: vehicle headings / approach directions. -/
inductive Direction where
  | N
  | S
  | E
  | W
deriving DecidableEq, Repr

/-- One signal face: `{ state, timer }`.  The timer is an `Int` because the
source decrements it without a lower bound (it goes negative). -/
structure Light where
  state : LightState
  timer : Int
deriving DecidableEq, Repr

/-- An intersection.  `lN`/`lS`/`lE`/`lW` are `lights[0..3]` of the source. -/
structure Intersection where
  id : Nat
  lN : Light
  lS : Light
  lE : Light
  lW : Light
  manualOverride : Bool
  emergencyOverrideFor : Option Direction
deriving DecidableEq, Repr

/-- Initial intersection `i` (lines 89-101): even index ⇒ NS green / EW red,
odd index ⇒ NS red / EW green, all timers `INITIAL_LIGHT_DURATION`. -/
def initIntersection (i : Nat) : Intersection :=
  { id := i
    lN := { state := if i % 2 = 0 then .Green else .Red, timer := INITIAL_LIGHT_DURATION }
    lS := { state := if i % 2 = 0 then .Green else .Red, timer := INITIAL_LIGHT_DURATION }
    lE := { state := if i % 2 = 0 then .Red else .Green, timer := INITIAL_LIGHT_DURATION }
    lW := { state := if i % 2 = 0 then .Red else .Green, timer := INITIAL_LIGHT_DURATION }
    manualOverride := false
    emergencyOverrideFor := none }

/-- The per-intersection body of `updateLights` (lines 131-180).
Order of authority in the source: `manualOverride` returns the
intersection unchanged first; only then is `emergencyOverrideFor`
consulted; otherwise the automatic branch runs:
`lights[0].timer--`, the decremented value is copied to the other three
timers, then either the `needsSwitch` branch (timer ≤ 0) or the
yellow-to-switch branch (`timer === 15 && lights[0] yellow`). -/
def updateIntersection (i : Intersection) : Intersection :=
  if i.manualOverride then i
  else
    match i.emergencyOverrideFor with
    | some dir =>
      let ns : LightState := if dir = .N ∨ dir = .S then .Green else .Red
      let ew : LightState := if dir = .E ∨ dir = .W then .Green else .Red
      { i with lN := { i.lN with state := ns }, lS := { i.lS with state := ns },
               lE := { i.lE with state := ew }, lW := { i.lW with state := ew } }
    | none =>
      let t0 : Int := i.lN.timer - 1
      let needsSwitch : Bool := decide (t0 ≤ 0)
      if needsSwitch then
        if i.lN.state = .Green then
          { i with lN := { state := .Yellow, timer := YELLOW_LIGHT_DURATION },
                   lS := { state := .Yellow, timer := YELLOW_LIGHT_DURATION },
                   lE := { i.lE with timer := t0 }, lW := { i.lW with timer := t0 } }
        else
          { i with lN := { i.lN with timer := t0 }, lS := { i.lS with timer := t0 },
                   lE := { state := .Yellow, timer := YELLOW_LIGHT_DURATION },
                   lW := { state := .Yellow, timer := YELLOW_LIGHT_DURATION } }
      else if t0 = INITIAL_LIGHT_DURATION - YELLOW_LIGHT_DURATION ∧ i.lN.state = .Yellow then
        if i.lE.state = .Red then
          { i with lN := { state := .Red, timer := INITIAL_LIGHT_DURATION },
                   lS := { state := .Red, timer := INITIAL_LIGHT_DURATION },
                   lE := { state := .Green, timer := INITIAL_LIGHT_DURATION },
                   lW := { state := .Green, timer := INITIAL_LIGHT_DURATION } }
        else
          { i with lN := { state := .Green, timer := INITIAL_LIGHT_DURATION },
                   lS := { state := .Green, timer := INITIAL_LIGHT_DURATION },
                   lE := { state := .Red, timer := INITIAL_LIGHT_DURATION },
                   lW := { state := .Red, timer := INITIAL_LIGHT_DURATION } }
      else
        { i with lN := { i.lN with timer := t0 }, lS := { i.lS with timer := t0 },
                 lE := { i.lE with timer := t0 }, lW := { i.lW with timer := t0 } }

/-- `VehicleType` enum. -/
inductive VehicleType where
  | Car
  | Bike
  | Bus
deriving DecidableEq, Repr

/-- `WeatherCondition` variant. -/
inductive Weather where
  | Clear
  | Rain
  | Fog
deriving DecidableEq, Repr

/-- A grid cell `{ gridX, gridY }` (signed, as JS numbers). -/
abbrev Cell := Int × Int

/-- A vehicle record. -/
structure Vehicle where
  id : Nat
  type : VehicleType
  x : ℚ
  y : ℚ
  direction : Direction
  speed : ℚ
  stopped : Bool
  waitTime : Nat
  isEmergency : Bool
  destination : Option Cell := none
  path : Option (List Cell) := none
  collisionTimestamp : Option Nat := none
deriving DecidableEq, Repr

/-- `getWeatherMultiplier` (lines 231-241). -/
def weatherMultiplier (w : Weather) (t : VehicleType) : ℚ :=
  match w with
  | .Rain => if t = .Bike then 1/2 else 7/10
  | .Fog => if t = .Bike then 3/10 else 2/5
  | .Clear => 1

/-- Collision-flag clearing (lines 247-250):
`if (v.collisionTimestamp && tick - v.collisionTimestamp > 10) delete`.
JS truthiness makes a timestamp of 0 falsy, and the subtraction is exact
integer arithmetic, so the condition is `t ≠ 0 ∧ t + 10 < tick`. -/
def clearCollisionFlag (tick : Nat) (v : Vehicle) : Vehicle :=
  match v.collisionTimestamp with
  | some t => if t ≠ 0 ∧ t + 10 < tick then { v with collisionTimestamp := none } else v
  | none => v

/-- Emergency-vehicle routing (lines 255-276): close to an intersection
center, re-derive the heading from the next path node. -/
def emergencyReroute (v : Vehicle) : Vehicle :=
  match v.path with
  | some path =>
    if v.isEmergency = true ∧ 0 < path.length then
      let gridX : Int := ⌊v.x / CELL_SIZE⌋
      let gridY : Int := ⌊v.y / CELL_SIZE⌋
      let cX : ℚ := gridX * CELL_SIZE + INTERSECTION_SIZE / 2
      let cY : ℚ := gridY * CELL_SIZE + INTERSECTION_SIZE / 2
      if (v.x - cX) ^ 2 + (v.y - cY) ^ 2 < 15 ^ 2 then
        let idx := path.findIdx fun p => decide (p.1 = gridX ∧ p.2 = gridY)
        if idx + 1 < path.length then
          match path[idx + 1]? with
          | some nxt =>
            let dx := nxt.1 - gridX
            let dy := nxt.2 - gridY
            { v with direction :=
                if dx > 0 then .E else if dx < 0 then .W
                else if dy > 0 then .S else if dy < 0 then .N else v.direction }
          | none => v
        else v
      else v
    else v
  | none => v

/-- JavaScript `%` (remainder with the sign of the dividend) on rationals. -/
def jsMod (a b : ℚ) : ℚ :=
  a - b * (if 0 ≤ a / b then (⌊a / b⌋ : ℚ) else (⌈a / b⌉ : ℚ))

/-- `isNearIntersection(pos, 'x')` (lines 278-282). -/
def isNearIntersectionX (v : Vehicle) (pos : ℚ) : Prop :=
  let pic := jsMod pos CELL_SIZE
  (v.direction = .E ∧ pic > CELL_SIZE - INTERSECTION_SIZE - LANE_WIDTH - 10 ∧
    pic < CELL_SIZE - INTERSECTION_SIZE - LANE_WIDTH) ∨
  (v.direction = .W ∧ pic < INTERSECTION_SIZE + LANE_WIDTH ∧
    pic > INTERSECTION_SIZE + LANE_WIDTH - 10)

/-- `isNearIntersection(pos, 'y')` (lines 283-286). -/
def isNearIntersectionY (v : Vehicle) (pos : ℚ) : Prop :=
  let pic := jsMod pos CELL_SIZE
  (v.direction = .S ∧ pic > CELL_SIZE - INTERSECTION_SIZE - LANE_WIDTH - 10 ∧
    pic < CELL_SIZE - INTERSECTION_SIZE - LANE_WIDTH) ∨
  (v.direction = .N ∧ pic < INTERSECTION_SIZE + LANE_WIDTH ∧
    pic > INTERSECTION_SIZE + LANE_WIDTH - 10)

instance (v : Vehicle) (pos : ℚ) : Decidable (isNearIntersectionX v pos) := by
  unfold isNearIntersectionX; infer_instance

instance (v : Vehicle) (pos : ℚ) : Decidable (isNearIntersectionY v pos) := by
  unfold isNearIntersectionY; infer_instance

/-- `lights[lightIndex]` with the `{'N':0,'S':1,'E':2,'W':3}` map (line 295). -/
def lightFor (i : Intersection) (d : Direction) : Light :=
  match d with
  | .N => i.lN
  | .S => i.lS
  | .E => i.lE
  | .W => i.lW

/-- The signal-based stop condition (lines 289-302). -/
def stopForLight (ints : List Intersection) (v : Vehicle) : Bool :=
  let gridX : Int := ⌊v.x / CELL_SIZE⌋
  let gridY : Int := ⌊v.y / CELL_SIZE⌋
  if 0 ≤ gridX ∧ gridX < 3 ∧ 0 ≤ gridY ∧ gridY < 3 then
    if isNearIntersectionX v v.x ∨ isNearIntersectionY v v.y then
      match ints[(gridY * 3 + gridX).toNat]? with
      | some i =>
        let l := lightFor i v.direction
        decide (l.state = .Red ∨ l.state = .Yellow)
      | none => false
    else false
  else false

/-- The vehicle-ahead stop condition (lines 304-317): some other vehicle
within the safety distance (30 for buses, 20 otherwise) that lies ahead in
the current heading. -/
def vehicleAheadStop (all : List Vehicle) (v : Vehicle) : Bool :=
  all.any fun o =>
    decide (o.id ≠ v.id) &&
    (let sd : ℚ := if v.type = .Bus then 30 else 20
     decide ((v.x - o.x) ^ 2 + (v.y - o.y) ^ 2 < sd ^ 2) &&
     decide ((v.direction = .N ∧ o.y < v.y) ∨ (v.direction = .S ∧ v.y < o.y) ∨
             (v.direction = .E ∧ v.x < o.x) ∨ (v.direction = .W ∧ o.x < v.x)))

/-- Position advance by weather-scaled speed (lines 322-330). -/
def advancePos (w : Weather) (v : Vehicle) : Vehicle :=
  let sp := v.speed * weatherMultiplier w v.type
  match v.direction with
  | .N => { v with y := v.y - sp }
  | .S => { v with y := v.y + sp }
  | .E => { v with x := v.x + sp }
  | .W => { v with x := v.x - sp }

/-- The per-vehicle first pass of `moveVehicles` (lines 244-333): clear an
expired collision flag, re-derive an emergency vehicle's heading, compute
the stop conditions, then set `stopped := stop && !isEmergency` and either
accumulate wait time or advance the position. -/
def moveVehicle (ints : List Intersection) (all : List Vehicle) (w : Weather)
    (tick : Nat) (v : Vehicle) : Vehicle :=
  let v2 := emergencyReroute (clearCollisionFlag tick v)
  let stop : Bool := stopForLight ints v2 || vehicleAheadStop all v2
  let stopped : Bool := stop && !v2.isEmergency
  let v3 := { v2 with stopped := stopped }
  if stopped then { v3 with waitTime := v3.waitTime + 1 } else advancePos w v3

/-- The initial intersection list (lines 89-101). -/
def initIntersections : List Intersection :=
  (List.range (GRID_SIZE * GRID_SIZE)).map initIntersection

/-- Intersection 0 after `n` per-tick automatic light updates from its
initial state (no overrides are ever set along this run). -/
def autoStateAfter (n : Nat) : Intersection :=
  Nat.iterate updateIntersection n (initIntersection 0)

/-- The random draws consumed by one call of `spawnVehicle`:
`edge = Math.floor(Math.random()*4)`, `position = Math.floor(Math.random()*GRID_SIZE)`,
the type draw `rand = Math.random()`, and the speed draw. -/
structure SpawnArgs where
  edge : Nat
  position : Nat
  rand : ℚ
  speedRand : ℚ
deriving DecidableEq, Repr

/-- `spawnVehicle` (lines 182-227).  NOTE the guard is `vehicles.length > 50`:
a spawn still happens when the population is exactly 50. -/
def spawnVehicle (args : SpawnArgs) (nextId : Nat) (vs : List Vehicle) : List Vehicle :=
  if vs.length > 50 then vs
  else
    let pos : ℚ := args.position
    let xyd : ℚ × ℚ × Direction :=
      match args.edge with
      | 0 => (pos * CELL_SIZE + INTERSECTION_SIZE / 2 + LANE_WIDTH / 2, -20, .S)
      | 1 => (pos * CELL_SIZE + INTERSECTION_SIZE / 2 - LANE_WIDTH / 2,
              (GRID_SIZE : ℚ) * CELL_SIZE + 20, .N)
      | 2 => (-20, pos * CELL_SIZE + INTERSECTION_SIZE / 2 - LANE_WIDTH / 2, .E)
      | 3 => ((GRID_SIZE : ℚ) * CELL_SIZE + 20,
              pos * CELL_SIZE + INTERSECTION_SIZE / 2 + LANE_WIDTH / 2, .W)
      | _ => (0, 0, .E)
    let ts : VehicleType × ℚ :=
      if args.rand < 7/10 then (.Car, 2 + args.speedRand * 2)
      else if args.rand < 9/10 then (.Bike, 3 + args.speedRand * 2)
      else (.Bus, 3/2 + args.speedRand * 1)
    vs ++ [{ id := nextId, type := ts.1, x := xyd.1, y := xyd.2.1,
             direction := xyd.2.2, speed := ts.2,
             stopped := false, waitTime := 0, isEmergency := false }]

/-- `JAM_STOPPED_RATIO_THRESHOLD = 0.66` (line 15). -/
def jamStoppedThreshold : ℚ := 66 / 100

/-- A jam-detection road segment: id string and bounding box. -/
structure Segment where
  sid : String
  xMin : ℚ
  xMax : ℚ
  yMin : ℚ
  yMax : ℚ
deriving DecidableEq, Repr

/-- The horizontal segments of `detectJams` (lines 378-384). -/
def hSegments : List Segment :=
  (List.range GRID_SIZE).flatMap fun i =>
    (List.range (GRID_SIZE - 1)).map fun j =>
      { sid := "H-" ++ toString i ++ "-" ++ toString j
        xMin := (j : ℚ) * CELL_SIZE + INTERSECTION_SIZE
        xMax := ((j : ℚ) + 1) * CELL_SIZE
        yMin := (i : ℚ) * CELL_SIZE + INTERSECTION_SIZE / 2
        yMax := (i : ℚ) * CELL_SIZE + INTERSECTION_SIZE / 2 + LANE_WIDTH * 2 }

/-- The vertical segments of `detectJams` (lines 400-406). -/
def vSegments : List Segment :=
  (List.range (GRID_SIZE - 1)).flatMap fun i =>
    (List.range GRID_SIZE).map fun j =>
      { sid := "V-" ++ toString i ++ "-" ++ toString j
        xMin := (j : ℚ) * CELL_SIZE + INTERSECTION_SIZE / 2
        xMax := (j : ℚ) * CELL_SIZE + INTERSECTION_SIZE / 2 + LANE_WIDTH * 2
        yMin := (i : ℚ) * CELL_SIZE + INTERSECTION_SIZE
        yMax := ((i : ℚ) + 1) * CELL_SIZE }

/-- All segments, horizontal first (the source scans them in this order). -/
def allSegments : List Segment := hSegments ++ vSegments

/-- Occupants of a segment (strict box comparisons, lines 386-388). -/
def vehiclesInSegment (s : Segment) (vs : List Vehicle) : List Vehicle :=
  vs.filter fun v => decide (s.xMin < v.x ∧ v.x < s.xMax ∧ s.yMin < v.y ∧ v.y < s.yMax)

/-- The per-segment jam test (lines 390-395): occupant count at least
`JAM_VEHICLE_THRESHOLD` and stopped fraction at least the ratio
threshold. -/
def jammedB (vs : List Vehicle) (s : Segment) : Bool :=
  let inSeg := vehiclesInSegment s vs
  decide (JAM_VEHICLE_THRESHOLD ≤ inSeg.length) &&
  decide (jamStoppedThreshold ≤ ((inSeg.filter fun v => v.stopped).length : ℚ) / (inSeg.length : ℚ))

/-- `detectJams` (lines 374-432): the ids of all jammed segments,
horizontal segments first. -/
def detectJams (vs : List Vehicle) : List String :=
  (allSegments.filter (jammedB vs)).map Segment.sid

/-- The first horizontal segment, `H-0-0`, with its box written out. -/
def firstHSegment : Segment :=
  { sid := "H-0-0", xMin := 100, xMax := 200, yMin := 50, yMax := 150 }

/-- A node record of the A* search (`{ g, h, f, parent }`, line 27). -/
structure ANode where
  g : Nat
  h : Nat
  f : Nat
  parent : Option Cell
deriving DecidableEq, Repr

/-- Manhattan distance between grid cells (the A* heuristic). -/
def manhattan (a b : Cell) : Nat := (a.1 - b.1).natAbs + (a.2 - b.2).natAbs

/-- JS `Map.get` on the nodes map (keys are grid cells). -/
def alistGet (m : List (Cell × ANode)) (k : Cell) : Option ANode :=
  (m.find? fun e => decide (e.1 = k)).map fun e => e.2

/-- JS `Map.set`: replace in place when the key exists, else append. -/
def alistSet (m : List (Cell × ANode)) (k : Cell) (v : ANode) : List (Cell × ANode) :=
  if m.any fun e => decide (e.1 = k) then
    m.map fun e => if e.1 = k then (k, v) else e
  else m ++ [(k, v)]

/-- The f-score consulted by the open-set minimum selection. -/
def getF (m : List (Cell × ANode)) (k : Cell) : Nat :=
  ((alistGet m k).map fun n => n.f).getD 0

/-- Parent-chain path reconstruction (lines 44-50), fuelled; the fuel is
never exhausted because parent chains are shorter than the node count. -/
def reconstruct : Nat → List (Cell × ANode) → Cell → List Cell
  | 0, _, k => [k]
  | fuel + 1, m, k =>
    match alistGet m k with
    | some nd =>
      match nd.parent with
      | some pk => reconstruct fuel m pk ++ [k]
      | none => [k]
    | none => [k]

/-- The 4-neighbourhood filtered to the grid (lines 58-63). -/
def neighborsOf (c : Cell) : List Cell :=
  [(c.1 + 1, c.2), (c.1 - 1, c.2), (c.1, c.2 + 1), (c.1, c.2 - 1)].filter
    fun n => decide (0 ≤ n.1 ∧ n.1 < (GRID_SIZE : Int) ∧ 0 ≤ n.2 ∧ n.2 < (GRID_SIZE : Int))

/-- The A* main loop (lines 35-78), fuelled.  A JS `Set` iterates in
insertion order, so the open set is a duplicate-free list: the minimum-f
selection starts from the first element and replaces it only on a strictly
smaller f; `Set.delete` removes the element; a neighbour is appended only
when not already present.  The fuel (200) is never exhausted on the 3×3
grid — the concrete evaluations below return real paths, not the
fuel-exhaustion `[]`. -/
def astarLoop : Nat → Cell → List (Cell × ANode) → List Cell → List Cell
  | 0, _, _, _ => []
  | fuel + 1, endC, nodes, openL =>
    match openL with
    | [] => []
    | c :: rest =>
      let current := rest.foldl (fun cur k => if getF nodes k < getF nodes cur then k else cur) c
      if current = endC then (reconstruct (fuel + 1) nodes current).drop 1
      else
        let openL1 := (c :: rest).erase current
        let curG := ((alistGet nodes current).map fun n => n.g).getD 0
        let st := (neighborsOf current).foldl
          (fun (acc : List (Cell × ANode) × List Cell) nb =>
            let g := curG + 1
            let h := manhattan nb endC
            let f := g + h
            let doUpdate : Bool :=
              match alistGet acc.1 nb with
              | none => true
              | some old => decide (f < old.f)
            if doUpdate then
              (alistSet acc.1 nb { g := g, h := h, f := f, parent := some current },
               if nb ∈ acc.2 then acc.2 else acc.2 ++ [nb])
            else acc)
          (nodes, openL1)
        astarLoop fuel endC st.1 st.2

/-- `findPath` (lines 21-80): A* from `start` to `endC`, returning the
path without the start cell (`path.slice(1)`). -/
def findPath (start endC : Cell) : List Cell :=
  let h0 := manhattan start endC
  astarLoop 200 endC [(start, { g := 0, h := h0, f := h0, parent := none })] [start]

/-- Grid adjacency (uniform cost 1 edges of the grid graph). -/
def adjacentB (a b : Cell) : Bool := decide (manhattan a b = 1)

/-- `isWalkB s t l` checks that `l` is a step-by-step walk from `s`
(exclusive) to `t` (inclusive) along grid edges; the empty list is a walk
only when `s = t`. -/
def isWalkB : Cell → Cell → List Cell → Bool
  | s, t, [] => decide (s = t)
  | s, t, c :: cs => adjacentB s c && isWalkB c t cs

/-- The squared distance of the collision check (line 346):
`Math.hypot(vehicleA.x - vehicleB.x, vehicleB.y - vehicleA.y)` squared. -/
def collDistSq (a b : Vehicle) : ℚ := (a.x - b.x) ^ 2 + (b.y - a.y) ^ 2

/-- Mark a vehicle collided at `tick` (lines 351-355): the current tick as
collision timestamp, forced stopped. -/
def stamp (tick : Nat) (v : Vehicle) : Vehicle :=
  { v with collisionTimestamp := some tick, stopped := true }

/-- One step of the pairwise collision scan at index pair `p` (lines
340-361): skip when either vehicle is already matched this tick,
otherwise if the distance is below the threshold stamp both (writing back
by index) and record both ids as matched. -/
def collideStep (tick : Nat) (st : List Vehicle × List Nat) (p : Nat × Nat) :
    List Vehicle × List Nat :=
  match st.1[p.1]?, st.1[p.2]? with
  | some a, some b =>
    if a.id ∈ st.2 ∨ b.id ∈ st.2 then st
    else if collDistSq a b < 15 ^ 2 then
      ((st.1.set p.1 (stamp tick a)).set p.2 (stamp tick b), st.2 ++ [a.id, b.id])
    else st
  | _, _ => st

/-- The index pairs `(i, j)` with `i < j < n`, in the order of the nested
loops of lines 337-338. -/
def scanPairs (n : Nat) : List (Nat × Nat) :=
  (List.range n).flatMap fun i => (List.range' (i + 1) (n - (i + 1))).map fun j => (i, j)

/-- The vehicle list after the post-move collision scan (lines 336-363). -/
def collisionScan (tick : Nat) (vs : List Vehicle) : List Vehicle :=
  ((scanPairs vs.length).foldl (collideStep tick) (vs, [])).1

/-- The `collidedThisTick` id set at the end of the scan, as the list of
ids in matching order (each accepted pairing appends both ids). -/
def collisionMatched (tick : Nat) (vs : List Vehicle) : List Nat :=
  ((scanPairs vs.length).foldl (collideStep tick) (vs, [])).2

/-- Position `k` holds a vehicle stamped with collision timestamp `tick`
and forced stopped. -/
def StampedAt (tick : Nat) (vs : List Vehicle) (k : Nat) : Prop :=
  ∃ v, vs[k]? = some v ∧ v.collisionTimestamp = some tick ∧ v.stopped = true

/-- A concrete car at the origin, used as a test fixture. -/
def carAt0 : Vehicle :=
  { id := 0, type := .Car, x := 0, y := 0, direction := .E, speed := 2,
    stopped := false, waitTime := 0, isEmergency := false }

/-- A concrete car 5 units east of the origin, used as a test fixture. -/
def carAt5 : Vehicle :=
  { id := 1, type := .Car, x := 5, y := 0, direction := .E, speed := 2,
    stopped := false, waitTime := 0, isEmergency := false }

/-- `averageWaitTime` of `updateStats` (lines 477-481). -/
def averageWaitTime (vs : List Vehicle) : ℚ :=
  let totalCars := vs.length
  let totalWaitTime : ℚ := (vs.map fun v => (v.waitTime : ℚ)).sum
  if totalCars > 0 then totalWaitTime / (totalCars : ℚ) / (TICKS_PER_SECOND : ℚ) else 0

/-- The weather-derived sensor noise factor (lines 500-508). -/
def noiseFactor (w : Weather) : ℚ :=
  match w with
  | .Rain => 1 / 10
  | .Fog => 1 / 4
  | .Clear => 0

/-- JavaScript `Math.round` (round half toward +∞) on rationals. -/
def jsRound (q : ℚ) : Int := ⌊q + 1 / 2⌋

/-- One entry of the `trafficDensity` stats array. -/
structure DensityEntry where
  name : String
  density : ℚ
deriving DecidableEq, Repr

/-- `trafficDensity` of `updateStats` (lines 510-522); `rands i` is the
`Math.random()` draw consumed for intersection `i` when noise applies. -/
def trafficDensity (vs : List Vehicle) (w : Weather) (rands : Nat → ℚ) : List DensityEntry :=
  (List.range (GRID_SIZE * GRID_SIZE)).map fun i =>
    let intersectionX : ℚ := ((i % GRID_SIZE : Nat) : ℚ) * CELL_SIZE
    let intersectionY : ℚ := ((i / GRID_SIZE : Nat) : ℚ) * CELL_SIZE
    let carsNear : Nat := (vs.filter fun c =>
      decide ((c.x - intersectionX) ^ 2 + (c.y - intersectionY) ^ 2 < CELL_SIZE ^ 2)).length
    let nf := noiseFactor w
    let carsNear2 : ℚ :=
      if nf > 0 then
        let noise := (rands i - 1 / 2) * 2 * nf * (carsNear : ℚ)
        ((max 0 (jsRound ((carsNear : ℚ) + noise)) : Int) : ℚ)
      else (carsNear : ℚ)
    { name := "Int " ++ toString (i + 1), density := carsNear2 / ((max 1 vs.length : Nat) : ℚ) * 100 }

end Traffic

open Traffic

theorem clearCollisionFlag_isEmergency (tick : Nat) (v : Vehicle) :
    (clearCollisionFlag tick v).isEmergency = v.isEmergency := by
  unfold clearCollisionFlag
  repeat' split
  all_goals rfl

theorem emergencyReroute_isEmergency (v : Vehicle) :
    (emergencyReroute v).isEmergency = v.isEmergency := by
  unfold emergencyReroute
  dsimp only
  repeat' split
  all_goals rfl

theorem advancePos_stopped (w : Weather) (v : Vehicle) :
    (advancePos w v).stopped = v.stopped := by
  unfold advancePos
  cases v.direction <;> rfl

/-- C1: claimed invariant "NS and EW are never both Green and never both
Yellow unless an emergency override is active".  The code violates it: from
the initial state of intersection 0 (no overrides), 25 applications of the
per-tick light update leave both the NS and EW faces Yellow with no
emergency override active (the NS-yellow phase expires into the
`needsSwitch` branch again, which sets the EW pair Yellow instead of
swapping the axes; the swap branch requires `timer = 15` during yellow,
which never happens). -/
theorem c1_both_yellow_reachable :
    (autoStateAfter 25).lN.state = LightState.Yellow ∧
    (autoStateAfter 25).lS.state = LightState.Yellow ∧
    (autoStateAfter 25).lE.state = LightState.Yellow ∧
    (autoStateAfter 25).lW.state = LightState.Yellow ∧
    (autoStateAfter 25).emergencyOverrideFor = none ∧
    (autoStateAfter 25).manualOverride = false := by
  decide

/-- C2: claimed cycle NS_GREEN → NS_YELLOW → EW_GREEN → EW_YELLOW → … with
durations 20/5.  On the code, after the NS green phase (20 ticks) and the
NS yellow phase (5 ticks) the state at tick 25 should be EW_GREEN
(NS red, EW green); instead both axes are Yellow, and the state never
advances (tick 26 is identical in light states), so EW_GREEN is never
reached from the initial NS_GREEN state. -/
theorem c2_cycle_broken :
    (autoStateAfter 25).lE.state ≠ LightState.Green ∧
    (autoStateAfter 25).lN.state = LightState.Yellow ∧
    (autoStateAfter 25).lE.state = LightState.Yellow ∧
    (autoStateAfter 26).lN.state = LightState.Yellow ∧
    (autoStateAfter 26).lE.state = LightState.Yellow := by
  decide

/-- C3 counterexample: an intersection with BOTH `manualOverride` set and an
emergency override for direction E.  The claim says the emergency override
wins (EW would become Green); in the code `manualOverride` is tested first
and returns the intersection unchanged, so the EW face stays Red. -/
theorem c3_counterexample :
    let m : Intersection :=
      { id := 0
        lN := { state := .Green, timer := 999 }, lS := { state := .Green, timer := 999 }
        lE := { state := .Red, timer := 999 }, lW := { state := .Red, timer := 999 }
        manualOverride := true
        emergencyOverrideFor := some .E }
    updateIntersection m = m ∧ (updateIntersection m).lE.state = LightState.Red := by
  decide

/-- C3 amended: manual override strictly takes precedence — whenever
`manualOverride` is set, the per-tick update returns the intersection
unchanged, so a simultaneous emergency override is not applied. -/
theorem c3_manual_precedence (i : Intersection) (h : i.manualOverride = true) :
    updateIntersection i = i := by
  simp [updateIntersection, h]

/-- Witness for `c3_manual_precedence` at a concrete intersection. -/
theorem c3_manual_precedence_witness :
    let m : Intersection :=
      { id := 4
        lN := { state := .Red, timer := 999 }, lS := { state := .Red, timer := 999 }
        lE := { state := .Green, timer := 999 }, lW := { state := .Green, timer := 999 }
        manualOverride := true
        emergencyOverrideFor := some .N }
    updateIntersection m = m := by
  exact c3_manual_precedence _ rfl

/-- C4 counterexample: an emergency vehicle (heading E at (300,125), no
path) with another vehicle 10 units ahead in its heading — the
vehicle-ahead stop condition holds, yet the kinematics pass leaves
`stopped = false`, because the source sets
`stopped = stop && !isEmergency`: emergency vehicles ignore ALL stop
conditions, not just the signal-based one. -/
theorem c4_counterexample :
    let vE : Vehicle :=
      { id := 0, type := .Car, x := 300, y := 125, direction := .E, speed := 2,
        stopped := false, waitTime := 0, isEmergency := true }
    let vO : Vehicle :=
      { id := 1, type := .Car, x := 310, y := 125, direction := .E, speed := 2,
        stopped := false, waitTime := 0, isEmergency := false }
    vehicleAheadStop [vE, vO] vE = true ∧
    (moveVehicle initIntersections [vE, vO] Weather.Clear 5 vE).stopped = false := by
  constructor
  · norm_num [vehicleAheadStop]
    rw [if_neg (by decide : ¬ (VehicleType.Car = VehicleType.Bus))]
    norm_num
  · simp [moveVehicle, clearCollisionFlag, emergencyReroute, advancePos]

/-- C4 amended: a vehicle with `isEmergency = true` is never marked stopped
by the per-tick kinematics update — every stop condition (signal-based AND
vehicle-ahead) is discarded by `stopped = stop && !isEmergency`. -/
theorem c4_emergency_never_stopped (ints : List Intersection) (all : List Vehicle)
    (w : Weather) (tick : Nat) (v : Vehicle) (h : v.isEmergency = true) :
    (moveVehicle ints all w tick v).stopped = false := by
  have h2 : (emergencyReroute (clearCollisionFlag tick v)).isEmergency = true := by
    rw [emergencyReroute_isEmergency, clearCollisionFlag_isEmergency, h]
  simp only [moveVehicle, h2, Bool.not_true, Bool.and_false, Bool.false_eq_true,
    if_false, advancePos_stopped]

/-- Witness for `c4_emergency_never_stopped` at a concrete input. -/
theorem c4_emergency_never_stopped_witness :
    let vE : Vehicle :=
      { id := 0, type := .Car, x := 300, y := 125, direction := .E, speed := 2,
        stopped := false, waitTime := 0, isEmergency := true }
    (moveVehicle initIntersections [vE] Weather.Clear 5 vE).stopped = false := by
  exact c4_emergency_never_stopped initIntersections _ Weather.Clear 5 _ rfl

/-- C5 counterexample: a collision timestamp set at tick T = 1 is claimed
to be absent from tick T + 10 = 11 onward; but at tick 11 the clearing
check `tick - T > 10` is false and the flag is still present. -/
theorem c5_counterexample :
    (clearCollisionFlag 11
      { id := 0, type := .Car, x := 0, y := 0, direction := .E, speed := 2,
        stopped := true, waitTime := 0, isEmergency := false,
        collisionTimestamp := some 1 }).collisionTimestamp = some 1 := by
  decide

/-- C5 amended: for a collision timestamp T ≥ 1 (a timestamp of 0 is falsy
in the source and never cleared), the flag is cleared by the tick-`tick`
update exactly when `tick > T + 10`: present through tick T + 10, absent
from tick T + 11 onward. -/
theorem c5_clear_at_T_plus_11 (tick T : Nat) (v : Vehicle) (hT : 1 ≤ T)
    (hts : v.collisionTimestamp = some T) :
    ((clearCollisionFlag tick v).collisionTimestamp = none ↔ T + 10 < tick) := by
  have hT0 : T ≠ 0 := Nat.one_le_iff_ne_zero.mp hT
  unfold clearCollisionFlag
  rw [hts]
  by_cases hlt : T + 10 < tick
  · simp [hT0, hlt]
  · simp [hlt, hts]

/-- Witness for `c5_clear_at_T_plus_11` at T = 1, tick = 12. -/
theorem c5_clear_at_T_plus_11_witness :
    (1 : Nat) ≤ 1 ∧
    ((clearCollisionFlag 12
      { id := 0, type := .Car, x := 0, y := 0, direction := .E, speed := 2,
        stopped := true, waitTime := 0, isEmergency := false,
        collisionTimestamp := some 1 }).collisionTimestamp = none ↔ 1 + 10 < 12) :=
  ⟨by decide, c5_clear_at_T_plus_11 12 1 _ (by decide) rfl⟩

/-- C9 counterexample: with exactly 50 live vehicles the spawn guard
`vehicles.length > 50` is false, so a vehicle IS added and the population
reaches 51 — the claim says a spawn from a count of at least 50 adds
nothing and the count stays at most 50. -/
theorem c9_counterexample :
    (spawnVehicle { edge := 0, position := 0, rand := 0, speedRand := 0 } 99
      (List.replicate 50
        { id := 0, type := .Car, x := 0, y := 0, direction := .E, speed := 2,
          stopped := false, waitTime := 0, isEmergency := false })).length = 51 := by
  simp [spawnVehicle]

/-- C9 amended: the spawn operation skips only when the population exceeds
50, so the live vehicle count after any spawn attempt is at most
`max (previous count) 51` — the effective cap is 51, not 50. -/
theorem c9_population_bound (args : SpawnArgs) (nextId : Nat) (vs : List Vehicle) :
    (spawnVehicle args nextId vs).length ≤ max vs.length 51 := by
  unfold spawnVehicle
  split
  · exact le_max_left _ _
  · rename_i h
    refine le_max_of_le_right ?_
    simp only [List.length_append, List.length_singleton]
    omega

/-- C10: with zero live vehicles the statistics recomputation is
division-safe: the average wait time is 0 and every per-intersection
density entry is 0 (for any weather and any sensor-noise draws, since the
density denominator is clamped to at least 1 and the noise term is
proportional to the zero occupant count). -/
theorem c10_empty_stats_safe (w : Weather) (rands : Nat → ℚ) :
    averageWaitTime [] = 0 ∧
    trafficDensity [] w rands =
      (List.range (GRID_SIZE * GRID_SIZE)).map fun i =>
        { name := "Int " ++ toString (i + 1), density := 0 } := by
  constructor
  · simp [averageWaitTime]
  · unfold trafficDensity
    refine List.map_congr_left fun i _ => ?_
    by_cases hnf : noiseFactor w > 0
    · simp [hnf, jsRound]
      norm_num
    · simp [hnf]

/-- C8: a segment of the jam scan is reported jammed iff its occupant
count is at least 3 and the stopped fraction of its occupants is at least
66/100; in particular 3 occupants with 2 stopped are reported jammed, and
at most 2 occupants are never reported jammed. -/
theorem c8_jam_characterization (vs : List Vehicle) (s : Segment)
    (hs : s ∈ allSegments) :
    (s.sid ∈ detectJams vs ↔
      (JAM_VEHICLE_THRESHOLD ≤ (vehiclesInSegment s vs).length ∧
        jamStoppedThreshold ≤
          (((vehiclesInSegment s vs).filter fun v => v.stopped).length : ℚ) /
            ((vehiclesInSegment s vs).length : ℚ))) ∧
    ((vehiclesInSegment s vs).length = 3 →
      ((vehiclesInSegment s vs).filter fun v => v.stopped).length = 2 →
      s.sid ∈ detectJams vs) ∧
    ((vehiclesInSegment s vs).length ≤ 2 → s.sid ∉ detectJams vs) := by
  have sids_nodup : (allSegments.map Segment.sid).Nodup := by decide
  have hmem : s.sid ∈ detectJams vs ↔ jammedB vs s = true := by
    constructor
    · intro h
      obtain ⟨t, ht, hsid⟩ := List.mem_map.mp h
      obtain ⟨htmem, htjam⟩ := List.mem_filter.mp ht
      have : t = s := List.inj_on_of_nodup_map sids_nodup htmem hs hsid
      exact this ▸ htjam
    · intro h
      exact List.mem_map.mpr ⟨s, List.mem_filter.mpr ⟨hs, h⟩, rfl⟩
  have hchar : s.sid ∈ detectJams vs ↔
      (JAM_VEHICLE_THRESHOLD ≤ (vehiclesInSegment s vs).length ∧
        jamStoppedThreshold ≤
          (((vehiclesInSegment s vs).filter fun v => v.stopped).length : ℚ) /
            ((vehiclesInSegment s vs).length : ℚ)) := by
    rw [hmem]
    unfold jammedB
    simp [Bool.and_eq_true, decide_eq_true_iff]
  refine ⟨hchar, ?_, ?_⟩
  · intro h3 h2
    refine hchar.mpr ⟨by rw [h3]; decide, ?_⟩
    rw [h3, h2]
    norm_num [jamStoppedThreshold]
  · intro hle h
    have := (hchar.mp h).1
    simp only [JAM_VEHICLE_THRESHOLD] at this
    omega

/-- Witness for `c8_jam_characterization`: the empty vehicle list and the
first horizontal segment — with no occupants the segment is not jammed. -/
theorem c8_jam_characterization_witness :
    firstHSegment ∈ allSegments ∧ firstHSegment.sid ∉ detectJams [] := by
  have hs : firstHSegment ∈ allSegments := by
    simp only [allSegments, hSegments, vSegments, firstHSegment, GRID_SIZE,
      List.range_succ, List.range_zero]
    norm_num [CELL_SIZE, INTERSECTION_SIZE, LANE_WIDTH]
    decide
  exact ⟨hs, (c8_jam_characterization [] firstHSegment hs).2.2 (by simp [vehiclesInSegment])⟩

set_option maxHeartbeats 4000000 in
/-- C7: on the 3×3 grid, `findPath c c = []`, and for every pair of cells
`findPath a b` is a genuine walk from `a` to `b` along grid edges that
excludes the start cell and whose length equals the Manhattan distance
between `a` and `b` — i.e. a cost-optimal path.  Checked exhaustively over
all 81 cell pairs. -/
theorem c7_findPath_optimal :
    ∀ p q : Fin 3 × Fin 3,
      findPath ((p.1 : Int), (p.2 : Int)) ((p.1 : Int), (p.2 : Int)) = [] ∧
      (findPath ((p.1 : Int), (p.2 : Int)) ((q.1 : Int), (q.2 : Int))).length =
        manhattan ((p.1 : Int), (p.2 : Int)) ((q.1 : Int), (q.2 : Int)) ∧
      ((p.1 : Int), (p.2 : Int)) ∉ findPath ((p.1 : Int), (p.2 : Int)) ((q.1 : Int), (q.2 : Int)) ∧
      isWalkB ((p.1 : Int), (p.2 : Int)) ((q.1 : Int), (q.2 : Int))
        (findPath ((p.1 : Int), (p.2 : Int)) ((q.1 : Int), (q.2 : Int))) = true := by
  decide

theorem scanPairs_mem {n : Nat} {p : Nat × Nat} (hp : p ∈ scanPairs n) :
    p.1 < p.2 ∧ p.2 < n := by
  unfold scanPairs at hp
  obtain ⟨i, hi, hj⟩ := List.mem_flatMap.mp hp
  obtain ⟨j, hjr, rfl⟩ := List.mem_map.mp hj
  rw [List.mem_range] at hi
  rw [List.mem_range'] at hjr
  obtain ⟨k, hk, rfl⟩ := hjr
  constructor <;> (dsimp only; omega)

theorem collideStep_stamped (tick : Nat) (st : List Vehicle × List Nat)
    (p : Nat × Nat) (k : Nat) (h : StampedAt tick st.1 k) :
    StampedAt tick (collideStep tick st p).1 k := by
  obtain ⟨v, hv, hts, hst⟩ := h
  unfold collideStep
  rcases h1 : st.1[p.1]? with _ | a
  · exact ⟨v, hv, hts, hst⟩
  rcases h2 : st.1[p.2]? with _ | b
  · exact ⟨v, hv, hts, hst⟩
  dsimp only
  split
  · exact ⟨v, hv, hts, hst⟩
  split
  · have hlen2 : p.2 < st.1.length := (List.getElem?_eq_some.mp h2).1
    by_cases hk2 : p.2 = k
    · subst hk2
      exact ⟨stamp tick b,
        by rw [List.getElem?_set_self (by rw [List.length_set]; exact hlen2)], rfl, rfl⟩
    · by_cases hk1 : p.1 = k
      · subst hk1
        refine ⟨stamp tick a, ?_, rfl, rfl⟩
        rw [List.getElem?_set_ne hk2,
          List.getElem?_set_self (List.getElem?_eq_some.mp h1).1]
      · exact ⟨v, by rw [List.getElem?_set_ne hk2, List.getElem?_set_ne hk1]; exact hv,
          hts, hst⟩
  · exact ⟨v, hv, hts, hst⟩

theorem foldl_stamped (tick : Nat) (l : List (Nat × Nat))
    (st : List Vehicle × List Nat) (k : Nat) (h : StampedAt tick st.1 k) :
    StampedAt tick (l.foldl (collideStep tick) st).1 k := by
  induction l generalizing st with
  | nil => exact h
  | cons p l ih => exact ih _ (collideStep_stamped tick st p k h)

theorem collideStep_ids (tick : Nat) (st : List Vehicle × List Nat) (p : Nat × Nat) :
    (collideStep tick st p).1.map (fun v => v.id) = st.1.map (fun v => v.id) := by
  unfold collideStep
  rcases h1 : st.1[p.1]? with _ | a
  · rfl
  rcases h2 : st.1[p.2]? with _ | b
  · rfl
  dsimp only
  split
  · rfl
  split
  · apply List.ext_getElem?
    intro n
    rw [List.getElem?_map, List.getElem?_map]
    by_cases hn2 : p.2 = n
    · subst hn2
      rw [List.getElem?_set_self
        (by rw [List.length_set]; exact (List.getElem?_eq_some.mp h2).1), h2]
      rfl
    · rw [List.getElem?_set_ne hn2]
      by_cases hn1 : p.1 = n
      · subst hn1
        rw [List.getElem?_set_self (List.getElem?_eq_some.mp h1).1, h1]
        rfl
      · rw [List.getElem?_set_ne hn1]
  · rfl

theorem collideStep_nodup (tick : Nat) (vs : List Vehicle)
    (hnodup : (vs.map fun v => v.id).Nodup) (st : List Vehicle × List Nat)
    (p : Nat × Nat) (hp : p.1 < p.2)
    (hids : st.1.map (fun v => v.id) = vs.map (fun v => v.id))
    (hnd : st.2.Nodup) : (collideStep tick st p).2.Nodup := by
  unfold collideStep
  rcases h1 : st.1[p.1]? with _ | a
  · exact hnd
  rcases h2 : st.1[p.2]? with _ | b
  · exact hnd
  dsimp only
  split
  · exact hnd
  rename_i hnotin
  split
  · have hsn : (st.1.map (fun v => v.id)).Nodup := hids ▸ hnodup
    have hia : (st.1.map (fun v => v.id))[p.1]? = some a.id := by
      rw [List.getElem?_map, h1]; rfl
    have hib : (st.1.map (fun v => v.id))[p.2]? = some b.id := by
      rw [List.getElem?_map, h2]; rfl
    have hlen1 : p.1 < (st.1.map (fun v => v.id)).length := by
      rw [List.length_map]; exact (List.getElem?_eq_some.mp h1).1
    have hne : a.id ≠ b.id := by
      intro hab
      have : p.1 = p.2 := List.getElem?_inj hlen1 hsn (by rw [hia, hib, hab])
      omega
    rw [List.nodup_append]
    refine ⟨hnd, by simp [List.nodup_cons, hne], ?_⟩
    intro x hx hx2
    rw [not_or] at hnotin
    rcases List.mem_cons.mp hx2 with rfl | hx3
    · exact hnotin.1 hx
    · rcases List.mem_cons.mp hx3 with rfl | hx4
      · exact hnotin.2 hx
      · exact List.not_mem_nil x hx4
  · exact hnd

theorem foldl_matched_nodup (tick : Nat) (vs : List Vehicle)
    (hnodup : (vs.map fun v => v.id).Nodup) (l : List (Nat × Nat))
    (hl : ∀ p ∈ l, p.1 < p.2) (st : List Vehicle × List Nat)
    (hids : st.1.map (fun v => v.id) = vs.map (fun v => v.id))
    (hnd : st.2.Nodup) : (l.foldl (collideStep tick) st).2.Nodup := by
  induction l generalizing st with
  | nil => exact hnd
  | cons p l ih =>
    rw [List.foldl_cons]
    exact ih (fun q hq => hl q (List.mem_cons_of_mem p hq)) (collideStep tick st p)
      ((collideStep_ids tick st p).trans hids)
      (collideStep_nodup tick vs hnodup st p (hl p (List.mem_cons_self p l)) hids hnd)

/-- C6: in the post-move collision scan, whenever the scan reaches an index
pair `p` (the scan order is `scanPairs`, the split `l₁ ++ p :: l₂` names
the examination point) whose two vehicles are closer than the collision
threshold of 15 units and neither of which has been matched earlier in
this tick's scan, the scan's final result holds, at both positions, a
vehicle stamped with the current tick as collision timestamp and forced
stopped; moreover (for distinct vehicle ids) the matched-id list is
duplicate-free, i.e. every vehicle is matched to at most one collision per
tick. -/
theorem c6_collision_scan (tick : Nat) (vs : List Vehicle)
    (hnodup : (vs.map fun v => v.id).Nodup)
    (l₁ l₂ : List (Nat × Nat)) (p : Nat × Nat)
    (hsplit : scanPairs vs.length = l₁ ++ p :: l₂)
    (a b : Vehicle)
    (ha : (l₁.foldl (collideStep tick) (vs, ([] : List Nat))).1[p.1]? = some a)
    (hb : (l₁.foldl (collideStep tick) (vs, ([] : List Nat))).1[p.2]? = some b)
    (hma : a.id ∉ (l₁.foldl (collideStep tick) (vs, ([] : List Nat))).2)
    (hmb : b.id ∉ (l₁.foldl (collideStep tick) (vs, ([] : List Nat))).2)
    (hd : collDistSq a b < 15 ^ 2) :
    StampedAt tick (collisionScan tick vs) p.1 ∧
    StampedAt tick (collisionScan tick vs) p.2 ∧
    (collisionMatched tick vs).Nodup := by
  have hp : p ∈ scanPairs vs.length := by
    rw [hsplit]; exact List.mem_append_right _ (List.mem_cons_self p l₂)
  obtain ⟨hp12, _⟩ := scanPairs_mem hp
  set st₁ := l₁.foldl (collideStep tick) (vs, ([] : List Nat)) with hst₁
  have hstep : collideStep tick st₁ p =
      ((st₁.1.set p.1 (stamp tick a)).set p.2 (stamp tick b), st₁.2 ++ [a.id, b.id]) := by
    unfold collideStep
    rw [ha, hb]
    dsimp only
    rw [if_neg (not_or.mpr ⟨hma, hmb⟩), if_pos hd]
  have hscan : collisionScan tick vs =
      (l₂.foldl (collideStep tick) (collideStep tick st₁ p)).1 := by
    unfold collisionScan
    rw [hsplit, List.foldl_append, List.foldl_cons, ← hst₁]
  have hlen1 : p.1 < st₁.1.length := (List.getElem?_eq_some.mp ha).1
  have hlen2 : p.2 < st₁.1.length := (List.getElem?_eq_some.mp hb).1
  have hs2 : StampedAt tick (collideStep tick st₁ p).1 p.2 := by
    rw [hstep]
    exact ⟨stamp tick b,
      by rw [List.getElem?_set_self (by rw [List.length_set]; exact hlen2)], rfl, rfl⟩
  have hs1 : StampedAt tick (collideStep tick st₁ p).1 p.1 := by
    rw [hstep]
    refine ⟨stamp tick a, ?_, rfl, rfl⟩
    rw [List.getElem?_set_ne (Nat.ne_of_gt hp12), List.getElem?_set_self hlen1]
  refine ⟨?_, ?_, ?_⟩
  · rw [hscan]; exact foldl_stamped tick l₂ _ p.1 hs1
  · rw [hscan]; exact foldl_stamped tick l₂ _ p.2 hs2
  · exact foldl_matched_nodup tick vs hnodup (scanPairs vs.length)
      (fun q hq => (scanPairs_mem hq).1) (vs, []) rfl List.nodup_nil

/-- Witness for `c6_collision_scan`: two cars 5 units apart at tick 7; the
only scan pair (0, 1) is examined with an empty matched set, and both
vehicles end the scan stamped and stopped. -/
theorem c6_collision_scan_witness :
    StampedAt 7 (collisionScan 7 [carAt0, carAt5]) 0 ∧
    StampedAt 7 (collisionScan 7 [carAt0, carAt5]) 1 ∧
    (collisionMatched 7 [carAt0, carAt5]).Nodup := by
  exact c6_collision_scan 7 [carAt0, carAt5] (by decide) [] [] (0, 1) (by decide)
    carAt0 carAt5 rfl rfl (by simp) (by simp) (by norm_num [collDistSq, carAt0, carAt5])
